import Mathlib

/-!
A shallow embedding of the `rapid` geospatial sharing application
(`rapid/models.py`, `rapid/views.py`).  Database tables are embedded as
lists of records inside a `DB` state; Django queryset `filter` calls
become `List.filter`, `save` appends a record, and `delete` on a
filtered queryset removes the matching records.  Geometry is an
abstract type parameter `G` together with an intersection test
`G → G → Bool` standing for the external PostGIS capability.
Operations of `rapid/select.py` (`DataOperator`), which is not part of
the sources at hand, are modelled from the specification and marked as
such in their doc comments.
-/

namespace Rapid

/-- Role enumeration of `models.py` lines 12-21: VIEWER = 0, EDITOR = 1,
OWNER = 2. -/
inductive Role where
  | VIEWER
  | EDITOR
  | OWNER
deriving DecidableEq, Repr

/-- Numeric value a role is stored as in the enum field (Viewer 0,
Editor 1, Owner 2); used to state the spec-side role ordering
Viewer < Editor < Owner. -/
def roleVal : Role → Nat
  | Role.VIEWER => 0
  | Role.EDITOR => 1
  | Role.OWNER => 2

/-- `ApiToken` of `models.py` lines 177-203: a credential with a unique
primary-key `uid` and a unique secret `key`. -/
structure ApiToken where
  uid : String
  key : String
deriving DecidableEq, Repr

/-- `DataLayer` of `models.py` lines 91-135 (record fields only; the
permission resolver is `DataLayer.has_permissions` below). -/
structure DataLayer where
  uid : String
  descriptor : String
  properties : Option String := none
  is_public : Bool := false
deriving DecidableEq, Repr

/-- `Feature` of `models.py` lines 146-156: geometry plus properties,
owned by a layer (`layer` is the owning layer's uid, the foreign key),
with a content `hash` column that carries a database-level unique
constraint.  `geom` is nullable in the schema, hence `Option G`. -/
structure Feature (G : Type) where
  uid : String
  geom : Option G
  properties : Option String := none
  layer : String
  hash : String
deriving DecidableEq, Repr

/-- `DataLayerRole` of `models.py` lines 214-219: a layer role binding
(token foreign key by uid, role, layer foreign key by uid). -/
structure DataLayerRole where
  token_id : String
  role : Role
  layer_id : String
deriving DecidableEq, Repr

/-- `GeoViewRole` of `models.py` lines 206-211: a geoview role binding.
Its fields are `token`, `role`, `geo_view` and nothing else. -/
structure GeoViewRole where
  token_id : String
  role : Role
  geo_view_id : String
deriving DecidableEq, Repr

/-- `GeoView` of `models.py` lines 33-88.  The many-to-many `layers`
association is embedded as the list of associated `DataLayer` records
in association insertion order (`add_layer` appends; the auto-created
through table keeps one row per (view, layer) pair).  `token_key` is
the unpublished per-request field the handler stores the caller's key
in before projection. -/
structure GeoView (G : Type) where
  uid : String
  descriptor : String
  geom : G
  properties : Option String := none
  is_public : Bool := false
  layers : List DataLayer := []
  token_key : Option String := none
deriving DecidableEq, Repr

/-- The persistent stores shared by all requests: one list per table. -/
structure DB (G : Type) where
  tokens : List ApiToken := []
  dataLayers : List DataLayer := []
  features : List (Feature G) := []
  dataLayerRoles : List DataLayerRole := []
  geoViewRoles : List GeoViewRole := []
deriving DecidableEq, Repr

/-- Python truthiness of the `token_key` argument: `if not token_key`
holds for `None` and for the empty string. -/
def tokenFalsy : Option String → Bool
  | none => true
  | some s => decide (s = "")

/-- The `token__key=token_key` queryset join of
`DataLayerRole.objects.filter(...)` in `has_permissions`: a binding
matches key `k` when its token foreign key resolves to a credential
whose secret key is `k`. -/
def keyMatches {G : Type} (st : DB G) (k : String) (b : DataLayerRole) : Bool :=
  decide (∃ t ∈ st.tokens, t.uid = b.token_id ∧ t.key = k)

/-- `DataLayer.has_permissions` of `models.py` lines 114-135, embedded
line by line: public layers short-circuit the Viewer check; a falsy
token key is rejected; otherwise the owner/editor/viewer binding
querysets are filtered and the requested role's branch checks their
counts. -/
def DataLayer.has_permissions {G : Type} (l : DataLayer) (st : DB G)
    (token_key : Option String) (role : Role) : Bool :=
  if l.is_public && decide (role = Role.VIEWER) then
    true
  else if tokenFalsy token_key then
    false
  else
    let k := token_key.getD ""
    let owners := st.dataLayerRoles.filter
      (fun b => keyMatches st k b && decide (b.layer_id = l.uid) && decide (b.role = Role.OWNER))
    let editors := st.dataLayerRoles.filter
      (fun b => keyMatches st k b && decide (b.layer_id = l.uid) && decide (b.role = Role.EDITOR))
    let viewers := st.dataLayerRoles.filter
      (fun b => keyMatches st k b && decide (b.layer_id = l.uid) && decide (b.role = Role.VIEWER))
    match role with
    | Role.OWNER => decide (0 < owners.length)
    | Role.EDITOR => decide (0 < owners.length) || decide (0 < editors.length)
    | Role.VIEWER =>
        decide (0 < owners.length) || decide (0 < editors.length) || decide (0 < viewers.length)

/-- The `geom__intersects` lookup on a nullable geometry column: a row
with a NULL geometry never matches a spatial lookup. -/
def featureIntersects {G : Type} (intersects : G → G → Bool) (f : Feature G) (w : G) : Bool :=
  match f.geom with
  | some g => intersects g w
  | none => false

/-- `GeoView.get_features` of `models.py` lines 75-82: walk the
associated layers in association order; for each layer that passes the
Viewer permission check with the request's `token_key`, emit the
layer's uid together with the uids of the layer's features whose
geometry intersects the view's window geometry.  Layers failing the
check contribute nothing. -/
def GeoView.get_features {G : Type} (v : GeoView G) (st : DB G)
    (intersects : G → G → Bool) : List (String × List String) :=
  v.layers.filterMap (fun layer =>
    if layer.has_permissions st v.token_key Role.VIEWER then
      some (layer.uid,
        (st.features.filter
          (fun f => decide (f.layer = layer.uid) && featureIntersects intersects f v.geom)).map
          Feature.uid)
    else
      none)

/-- `GeoView.add_layer` of `models.py` lines 70-73: `ManyToManyField.add`
appends the association; it is a no-op when the pair already exists
(the auto-created through table holds one row per pair). -/
def GeoView.add_layer {G : Type} (v : GeoView G) (l : DataLayer) : GeoView G :=
  if v.layers.any (fun l0 => decide (l0.uid = l.uid)) then v
  else { v with layers := v.layers ++ [l] }

/-- Modelled from the spec: `DataOperator.has_layer_permissions` lives
in `rapid/select.py`, which is not among the sources at hand.  Per the
resolver contract it resolves the layer by uid and delegates to
`DataLayer.has_permissions`; an unknown layer grants nothing. -/
def has_layer_permissions {G : Type} (st : DB G) (token_key : Option String)
    (layer_uid : String) (role : Role) : Bool :=
  match st.dataLayers.find? (fun l => decide (l.uid = layer_uid)) with
  | some l => l.has_permissions st token_key role
  | none => false

/-- Modelled from the spec: `DataOperator.create_layer` lives in
`rapid/select.py`, which is not among the sources at hand.  Per §4.2 it
allocates a new Layer row and returns its uid; as §9 records, the
source creates only the Layer here — the Owner binding is saved
separately by the caller in `views.layers`.  The freshly generated uid
is made explicit as an argument. -/
def create_layer {G : Type} (st : DB G) (uid descriptor : String)
    (is_public : Bool) (properties : Option String) : DB G :=
  { st with dataLayers := st.dataLayers ++
      [{ uid := uid, descriptor := descriptor, properties := properties,
         is_public := is_public }] }

/-- Modelled from the spec: `DataOperator.get_apitoken` lives in
`rapid/select.py`, which is not among the sources at hand.  It resolves
the operator's token key to the credential record; `none` models the
`DoesNotExist` exception when no credential carries that key. -/
def get_apitoken {G : Type} (st : DB G) (token_key : Option String) : Option ApiToken :=
  st.tokens.find? (fun t => decide (some t.key = token_key))

/-- The POST branch of `views.layers` (`views.py` lines 49-70): first
`data.create_layer(...)` commits the new Layer, then — as a second,
separate write with no enclosing transaction — a `DataLayerRole` with
role OWNER is saved for the operator's credential.  When the credential
cannot be resolved the second write never happens and the Layer stays
as `create_layer` left it. -/
def layersPost {G : Type} (st : DB G) (token_key : Option String)
    (uid descriptor : String) (is_public : Bool) (properties : Option String) : DB G :=
  let st1 := create_layer st uid descriptor is_public properties
  match get_apitoken st1 token_key with
  | some t =>
      { st1 with dataLayerRoles := st1.dataLayerRoles ++
          [{ token_id := t.uid, role := Role.OWNER, layer_id := uid }] }
  | none => st1

/-- `views.addLayerOwner` (`views.py` lines 180-190).  After the Owner
check on the caller, line 186 constructs
`GeoViewRole(layer_id=layer_uid, role=Role.OWNER, token_id=token_uid)`;
`GeoViewRole` (`models.py` lines 206-211) has fields `token`, `role`
and `geo_view` only, so Django's model constructor raises `TypeError`
for the unexpected `layer_id` keyword before anything is saved.  The
raised exception is embedded as `Except.error`; no store is touched on
either path that reaches the constructor. -/
def addLayerOwner {G : Type} (st : DB G) (token_key : Option String)
    (layer_uid token_uid : String) : Except String (DB G × String) :=
  if has_layer_permissions st token_key layer_uid Role.OWNER then
    Except.error "TypeError: layer_id is an invalid keyword argument for GeoViewRole"
  else
    Except.ok (st, "Not permitted to edit layer.")

/-- The database state after a `views.addLayerOwner` request: on the
exception path nothing was saved, so the state is unchanged. -/
def addLayerOwnerState {G : Type} (st : DB G) (token_key : Option String)
    (layer_uid token_uid : String) : DB G :=
  match addLayerOwner st token_key layer_uid token_uid with
  | Except.ok (st1, _) => st1
  | Except.error _ => st

/-- `views.addLayerEditor` (`views.py` lines 192-202): after the Owner
check on the caller, saves a `DataLayerRole` with role EDITOR for the
grantee token on the layer. -/
def addLayerEditor {G : Type} (st : DB G) (token_key : Option String)
    (layer_uid token_uid : String) : DB G × String :=
  if has_layer_permissions st token_key layer_uid Role.OWNER then
    ({ st with dataLayerRoles := st.dataLayerRoles ++
        [{ token_id := token_uid, role := Role.EDITOR, layer_id := layer_uid }] },
     "Added access for token.")
  else
    (st, "Not permitted to edit layer.")

/-- `views.addLayerViewer` (`views.py` lines 204-214): after the Owner
check on the caller, saves a `DataLayerRole` with role VIEWER for the
grantee token on the layer. -/
def addLayerViewer {G : Type} (st : DB G) (token_key : Option String)
    (layer_uid token_uid : String) : DB G × String :=
  if has_layer_permissions st token_key layer_uid Role.OWNER then
    ({ st with dataLayerRoles := st.dataLayerRoles ++
        [{ token_id := token_uid, role := Role.VIEWER, layer_id := layer_uid }] },
     "Added access for token.")
  else
    (st, "Not permitted to edit layer.")

/-- The queryset lookup
`DataLayerRole.objects.filter(layer_id=..., role=..., token_id=...)`
used by the layer revoke handlers: a binding matches when all three
keyword filters match. -/
def roleDeleteMatch (layer_uid : String) (r0 : Role) (token_uid : String)
    (b : DataLayerRole) : Bool :=
  decide (b.layer_id = layer_uid) && decide (b.role = r0) && decide (b.token_id = token_uid)

/-- `views.removeLayerEditor` (`views.py` lines 260-269): after the
Owner check on the caller, deletes every `DataLayerRole` matching
(layer, EDITOR, token) — the queryset `delete` removes the matching
rows and succeeds even when none match. -/
def removeLayerEditor {G : Type} (st : DB G) (token_key : Option String)
    (layer_uid token_uid : String) : DB G × String :=
  if has_layer_permissions st token_key layer_uid Role.OWNER then
    let kept := st.dataLayerRoles.filter
      (fun b => !(roleDeleteMatch layer_uid Role.EDITOR token_uid b))
    ({ st with dataLayerRoles := kept }, "Removed access for token.")
  else
    (st, "Not permitted to edit Layer.")

/-- `views.removeLayerViewer` (`views.py` lines 271-280): after the
Owner check on the caller, deletes every `DataLayerRole` matching
(layer, VIEWER, token). -/
def removeLayerViewer {G : Type} (st : DB G) (token_key : Option String)
    (layer_uid token_uid : String) : DB G × String :=
  if has_layer_permissions st token_key layer_uid Role.OWNER then
    let kept := st.dataLayerRoles.filter
      (fun b => !(roleDeleteMatch layer_uid Role.VIEWER token_uid b))
    ({ st with dataLayerRoles := kept }, "Removed access for token.")
  else
    (st, "Not permitted to edit Layer.")

/-- `views.removeLayerOwner` (`views.py` lines 249-258): after the
Owner check on the caller, deletes every `DataLayerRole` matching
(layer, OWNER, token). -/
def removeLayerOwner {G : Type} (st : DB G) (token_key : Option String)
    (layer_uid token_uid : String) : DB G × String :=
  if has_layer_permissions st token_key layer_uid Role.OWNER then
    let kept := st.dataLayerRoles.filter
      (fun b => !(roleDeleteMatch layer_uid Role.OWNER token_uid b))
    ({ st with dataLayerRoles := kept }, "Removed access for token.")
  else
    (st, "Not permitted to edit Layer.")

/-- The URL configuration routes the revocation of each role to its
own view function: this dispatcher selects
`removeLayerViewer` / `removeLayerEditor` / `removeLayerOwner`
(`views.py` lines 249-280) by the revoked role. -/
def removeLayerRole {G : Type} (st : DB G) (token_key : Option String)
    (layer_uid token_uid : String) : Role → DB G × String
  | Role.VIEWER => removeLayerViewer st token_key layer_uid token_uid
  | Role.EDITOR => removeLayerEditor st token_key layer_uid token_uid
  | Role.OWNER => removeLayerOwner st token_key layer_uid token_uid

/-- Typed failures of the core operations, per §7 of the spec. -/
inductive ApiError where
  | DuplicateContent
deriving DecidableEq, Repr

/-- Modelled from the spec: `DataOperator.create_feature` lives in
`rapid/select.py`, which is not among the sources at hand.  Per §4.3
it computes the content hash from geometry and properties with the
deterministic hash capability `h`, fails with `DuplicateContent` when
any Feature anywhere already carries that hash (the `hash` column of
`models.py` line 153 is declared unique), and otherwise inserts the new
Feature under the layer.  The freshly generated uid is made explicit
as an argument. -/
def create_feature {G : Type} (h : Option G → Option String → String) (st : DB G)
    (uid : String) (geom : Option G) (layer_uid : String)
    (properties : Option String) : Except ApiError (DB G) :=
  if st.features.any (fun f => decide (f.hash = h geom properties)) then
    Except.error ApiError.DuplicateContent
  else
    Except.ok { st with features := st.features ++
      [{ uid := uid, geom := geom, properties := properties,
         layer := layer_uid, hash := h geom properties }] }

/-- The feature store state after a `create_feature` call: a failed
create commits nothing, so the state is unchanged. -/
def create_feature_state {G : Type} (h : Option G → Option String → String) (st : DB G)
    (uid : String) (geom : Option G) (layer_uid : String)
    (properties : Option String) : DB G :=
  match create_feature h st uid geom layer_uid properties with
  | Except.ok st1 => st1
  | Except.error _ => st

/-- The role bindings a credential with key `k` holds on the layer with
uid `layer_uid`, written from the spec's words for §4.1: all
RoleBindings for (credential, resource, resource kind = Layer). -/
def bindingRolesFor {G : Type} (st : DB G) (k : String) (layer_uid : String) : List Role :=
  (st.dataLayerRoles.filter
    (fun b => keyMatches st k b && decide (b.layer_id = layer_uid))).map DataLayerRole.role

/-- Maximum of two roles under the Viewer < Editor < Owner order. -/
def roleMax (a b : Role) : Role :=
  if roleVal a ≤ roleVal b then b else a

/-- The maximum role present in a list of bindings; absence means no
role, written from the spec's words for §4.1. -/
def maxRole : List Role → Option Role
  | [] => none
  | r :: rs => some (rs.foldl roleMax r)

/-- The resolver as the spec words it in §4.1: true iff the maximum
role present is at least the required role under the total order
Viewer < Editor < Owner (false when no role is present). -/
def resolverSpec (rs : List Role) (required : Role) : Bool :=
  match maxRole rs with
  | none => false
  | some m => decide (roleVal required ≤ roleVal m)

/-! ### General helper lemmas about list filters and boolean searches -/

theorem filter_length_pos_eq_any {α : Type} (p : α → Bool) (l : List α) :
    decide (0 < (l.filter p).length) = l.any p := by
  induction l with
  | nil => rfl
  | cons a t ih =>
    by_cases h : p a = true
    · simp [List.filter_cons, h, List.any_cons]
    · rw [Bool.not_eq_true] at h
      simp [List.filter_cons, h, List.any_cons, ih]

theorem any_or_split {α : Type} (p q : α → Bool) (l : List α) :
    l.any (fun a => p a || q a) = (l.any p || l.any q) := by
  induction l with
  | nil => rfl
  | cons a t ih =>
    cases hpa : p a <;> cases hqa : q a <;>
      simp [List.any_cons, hpa, hqa, ih]

theorem any_map_on {α β : Type} (f : α → β) (p : β → Bool) (l : List α) :
    (l.map f).any p = l.any (fun a => p (f a)) := by
  induction l with
  | nil => rfl
  | cons a t ih => simp [List.any_cons, ih]

theorem any_congr_on {α : Type} {p q : α → Bool} {l : List α}
    (h : ∀ a ∈ l, p a = q a) : l.any p = l.any q := by
  induction l with
  | nil => rfl
  | cons a t ih =>
    rw [List.any_cons, List.any_cons, h a (by simp),
      ih (fun b hb => h b (by simp [hb]))]

theorem filter_congr_on {α : Type} {p q : α → Bool} {l : List α}
    (h : ∀ a ∈ l, p a = q a) : l.filter p = l.filter q := by
  induction l with
  | nil => rfl
  | cons a t ih =>
    rw [List.filter_cons, List.filter_cons, h a (by simp),
      ih (fun b hb => h b (by simp [hb]))]

/-! ### The spec-side resolver agrees with an existential search -/

theorem roleMax_ge (r a x : Role) :
    decide (roleVal r ≤ roleVal (roleMax a x)) =
      (decide (roleVal r ≤ roleVal a) || decide (roleVal r ≤ roleVal x)) := by
  rw [← Bool.decide_or]
  apply decide_eq_decide.mpr
  unfold roleMax
  by_cases h : roleVal a ≤ roleVal x <;> simp [h] <;> omega

theorem foldl_roleMax_ge (r a : Role) (rs : List Role) :
    decide (roleVal r ≤ roleVal (rs.foldl roleMax a)) =
      (decide (roleVal r ≤ roleVal a) ||
        rs.any (fun x => decide (roleVal r ≤ roleVal x))) := by
  induction rs generalizing a with
  | nil => simp
  | cons x t ih =>
    rw [List.foldl_cons, ih (roleMax a x), List.any_cons, roleMax_ge,
      Bool.or_assoc]

theorem resolverSpec_eq_any (rs : List Role) (r : Role) :
    resolverSpec rs r = rs.any (fun x => decide (roleVal r ≤ roleVal x)) := by
  cases rs with
  | nil => rfl
  | cons a t =>
    rw [List.any_cons, ← foldl_roleMax_ge]
    rfl

/-- C5: for every non-public layer `l`, supplied credential key `k` and
required role `r`, `has_permissions` returns true iff the maximum role
among the credential's role bindings on `l` (absence meaning no role)
is at least `r` under the total order Viewer < Editor < Owner; in
particular an Owner binding passes the Editor and Viewer checks and an
Editor binding passes the Viewer check. -/
theorem has_permissions_eq_max_role_resolver {G : Type} (st : DB G) (l : DataLayer)
    (k : String) (r : Role) (hpub : l.is_public = false) (hk : k ≠ "") :
    l.has_permissions st (some k) r = resolverSpec (bindingRolesFor st k l.uid) r := by
  have hfalsy : tokenFalsy (some k) = false := by simp [tokenFalsy, hk]
  rw [resolverSpec_eq_any]
  unfold bindingRolesFor
  rw [any_map_on, List.any_filter]
  unfold DataLayer.has_permissions
  rw [hpub, hfalsy]
  simp only [Bool.false_and, Bool.false_eq_true, if_false, Option.getD_some]
  cases r with
  | OWNER =>
    rw [filter_length_pos_eq_any]
    apply any_congr_on
    intro b _
    cases hrole : b.role <;> simp [hrole, roleVal]
  | EDITOR =>
    rw [filter_length_pos_eq_any, filter_length_pos_eq_any, ← any_or_split]
    apply any_congr_on
    intro b _
    cases hrole : b.role <;> simp [hrole, roleVal]
  | VIEWER =>
    rw [filter_length_pos_eq_any, filter_length_pos_eq_any, filter_length_pos_eq_any,
      ← any_or_split, ← any_or_split]
    apply any_congr_on
    intro b _
    cases hrole : b.role <;> simp [hrole, roleVal]

/-- Witness for the C5 theorem at a concrete state: one token `t1` with
key `k1` holding an Editor binding on layer `L1`; the resolver equality
is applied with required role Viewer. -/
theorem has_permissions_eq_max_role_resolver_witness :
    (let st : DB Unit :=
      { tokens := [{ uid := "t1", key := "k1" }],
        dataLayers := [{ uid := "L1", descriptor := "d" }],
        dataLayerRoles := [{ token_id := "t1", role := Role.EDITOR, layer_id := "L1" }] }
     let l : DataLayer := { uid := "L1", descriptor := "d" }
     l.is_public = false ∧ "k1" ≠ "" ∧
       l.has_permissions st (some "k1") Role.VIEWER =
         resolverSpec (bindingRolesFor st "k1" l.uid) Role.VIEWER) :=
  ⟨rfl, by decide,
    has_permissions_eq_max_role_resolver _ _ _ _ rfl (by decide)⟩

/-- C6: the public flag grants exactly the Viewer capability — on a
public layer the Viewer check passes for any credential or none, while
any higher required role is refused both for a credential holding no
binding on the layer and for a missing credential. -/
theorem public_flag_grants_viewer_only {G : Type} (st : DB G) (l : DataLayer)
    (hpub : l.is_public = true) :
    (∀ tk, l.has_permissions st tk Role.VIEWER = true) ∧
    (∀ (k : String) (r : Role), r ≠ Role.VIEWER →
      (∀ b ∈ st.dataLayerRoles, ¬(keyMatches st k b = true ∧ b.layer_id = l.uid)) →
      l.has_permissions st (some k) r = false) ∧
    (∀ r : Role, r ≠ Role.VIEWER → l.has_permissions st none r = false) := by
  refine ⟨?_, ?_, ?_⟩
  · intro tk
    unfold DataLayer.has_permissions
    simp [hpub]
  · intro k r hr hnb
    have hdec : decide (r = Role.VIEWER) = false := by simp [hr]
    unfold DataLayer.has_permissions
    rw [hpub, hdec]
    simp only [Bool.and_false, Bool.false_eq_true, if_false]
    by_cases hk : k = ""
    · simp [tokenFalsy, hk]
    · have hfalsy : tokenFalsy (some k) = false := by simp [tokenFalsy, hk]
      rw [hfalsy]
      simp only [Bool.false_eq_true, if_false, Option.getD_some]
      have hempty : ∀ r0 : Role,
          st.dataLayerRoles.any
            (fun b => keyMatches st k b && decide (b.layer_id = l.uid) &&
              decide (b.role = r0)) = false := by
        intro r0
        apply List.any_eq_false.mpr
        intro b hb
        intro hcontra
        simp only [Bool.and_eq_true] at hcontra
        exact hnb b hb ⟨hcontra.1.1, of_decide_eq_true hcontra.1.2⟩
      cases r with
      | VIEWER => exact absurd rfl hr
      | EDITOR =>
        rw [filter_length_pos_eq_any, filter_length_pos_eq_any, hempty, hempty]
        rfl
      | OWNER =>
        rw [filter_length_pos_eq_any, hempty]
  · intro r hr
    have hdec : decide (r = Role.VIEWER) = false := by simp [hr]
    unfold DataLayer.has_permissions
    rw [hpub, hdec]
    simp [tokenFalsy]

/-- Witness for the C6 theorem at a concrete state: a public layer and
a store with a single binding held by a different credential; all three
conjuncts are exercised. -/
theorem public_flag_grants_viewer_only_witness :
    (let st : DB Unit :=
      { tokens := [{ uid := "t1", key := "k1" }],
        dataLayers := [{ uid := "L1", descriptor := "d", is_public := true }],
        dataLayerRoles := [{ token_id := "t1", role := Role.OWNER, layer_id := "L1" }] }
     let l : DataLayer := { uid := "L1", descriptor := "d", is_public := true }
     l.has_permissions st (some "k2") Role.VIEWER = true ∧
       l.has_permissions st none Role.VIEWER = true ∧
       l.has_permissions st (some "k2") Role.EDITOR = false ∧
       l.has_permissions st none Role.EDITOR = false) := by
  refine ⟨?_, ?_, ?_, ?_⟩
  · exact (public_flag_grants_viewer_only _ _ rfl).1 (some "k2")
  · exact (public_flag_grants_viewer_only _ _ rfl).1 none
  · exact (public_flag_grants_viewer_only _ _ rfl).2.1 "k2" Role.EDITOR (by decide)
      (by decide)
  · exact (public_flag_grants_viewer_only _ _ rfl).2.2 Role.EDITOR (by decide)

/-! ### Structure of the projection result -/

theorem map_fst_filterMap_if {α β γ : Type} (p : α → Bool) (g : α → β) (h : α → γ)
    (l : List α) :
    (l.filterMap (fun a => if p a then some (g a, h a) else none)).map Prod.fst =
      (l.filter p).map g := by
  induction l with
  | nil => rfl
  | cons a t ih =>
    by_cases hpa : p a = true
    · simp [List.filterMap_cons, List.filter_cons, hpa, ih]
    · rw [Bool.not_eq_true] at hpa
      simp [List.filterMap_cons, List.filter_cons, hpa, ih]

/-- C3: for a layer `l` on which the view's credential passes the
Viewer check, the projection lists under `l` exactly the identifiers
of features owned by `l` whose geometry intersects the view's window
geometry — an identifier belongs to the entry iff an intersecting
feature of `l` carries it, and a feature of `l` that does not
intersect the window is excluded. -/
theorem get_features_lists_exactly_intersecting {G : Type} (intersects : G → G → Bool)
    (st : DB G) (v : GeoView G) (l : DataLayer) (hl : l ∈ v.layers)
    (hperm : l.has_permissions st v.token_key Role.VIEWER = true) :
    ∃ fs, (l.uid, fs) ∈ v.get_features st intersects ∧
      (∀ fid, fid ∈ fs ↔ ∃ f ∈ st.features, f.uid = fid ∧ f.layer = l.uid ∧
        featureIntersects intersects f v.geom = true) ∧
      ((st.features.map Feature.uid).Nodup →
        ∀ f ∈ st.features, f.layer = l.uid →
          featureIntersects intersects f v.geom = false → f.uid ∉ fs) := by
  refine ⟨(st.features.filter
      (fun f => decide (f.layer = l.uid) && featureIntersects intersects f v.geom)).map
      Feature.uid, ?_, ?_, ?_⟩
  · apply List.mem_filterMap.mpr
    exact ⟨l, hl, by simp [hperm]⟩
  · intro fid
    constructor
    · intro hmem
      rcases List.mem_map.mp hmem with ⟨f, hf, huid⟩
      rcases List.mem_filter.mp hf with ⟨hfin, hpred⟩
      simp only [Bool.and_eq_true, decide_eq_true_eq] at hpred
      exact ⟨f, hfin, huid, hpred.1, hpred.2⟩
    · rintro ⟨f, hfin, huid, hlayer, hint⟩
      apply List.mem_map.mpr
      refine ⟨f, List.mem_filter.mpr ⟨hfin, ?_⟩, huid⟩
      simp [hlayer, hint]
  · intro hnd f hfin hlayer hint hmem
    rcases List.mem_map.mp hmem with ⟨f2, hf2, huid⟩
    rcases List.mem_filter.mp hf2 with ⟨hf2in, hpred⟩
    have : f2 = f := List.inj_on_of_nodup_map hnd hf2in hfin huid
    subst this
    simp only [Bool.and_eq_true] at hpred
    rw [hint] at hpred
    exact Bool.false_ne_true hpred.2

/-- Witness for the C3 theorem at a concrete state: a view over layer
`L1` (credential `k1` holds Viewer) with one intersecting and one
non-intersecting feature; geometries are integers and intersection is
equality. -/
theorem get_features_lists_exactly_intersecting_witness :
    (let l : DataLayer := { uid := "L1", descriptor := "d" }
     let st : DB Int :=
      { tokens := [{ uid := "t1", key := "k1" }],
        dataLayers := [{ uid := "L1", descriptor := "d" }],
        features := [{ uid := "F1", geom := some 0, layer := "L1", hash := "h1" },
                     { uid := "F2", geom := some 100, layer := "L1", hash := "h2" }],
        dataLayerRoles := [{ token_id := "t1", role := Role.VIEWER, layer_id := "L1" }] }
     let v : GeoView Int :=
      { uid := "V1", descriptor := "v", geom := 0, layers := [l],
        token_key := some "k1" }
     ∃ fs, (l.uid, fs) ∈ v.get_features st (fun a b => decide (a = b)) ∧
      (∀ fid, fid ∈ fs ↔ ∃ f ∈ st.features, f.uid = fid ∧ f.layer = l.uid ∧
        featureIntersects (fun a b => decide (a = b)) f v.geom = true) ∧
      ((st.features.map Feature.uid).Nodup →
        ∀ f ∈ st.features, f.layer = l.uid →
          featureIntersects (fun a b => decide (a = b)) f v.geom = false →
            f.uid ∉ fs)) :=
  get_features_lists_exactly_intersecting _ _ _ _ (by decide) (by decide)

/-- C4: a layer contributes an entry to the projection iff it is
associated with the view and passes the Viewer check — the projected
layer uids are, in association order, exactly the uids of the
permitted associated layers; a layer failing the check is entirely
absent; a permitted layer with no intersecting feature still
contributes an entry with an empty feature list. -/
theorem get_features_layer_selection {G : Type} (intersects : G → G → Bool)
    (st : DB G) (v : GeoView G) (hnd : (v.layers.map DataLayer.uid).Nodup) :
    ((v.get_features st intersects).map Prod.fst =
      (v.layers.filter
        (fun l => l.has_permissions st v.token_key Role.VIEWER)).map DataLayer.uid) ∧
    (∀ l ∈ v.layers, l.has_permissions st v.token_key Role.VIEWER = false →
      l.uid ∉ (v.get_features st intersects).map Prod.fst) ∧
    (∀ l ∈ v.layers, l.has_permissions st v.token_key Role.VIEWER = true →
      (∀ f ∈ st.features,
        ¬(f.layer = l.uid ∧ featureIntersects intersects f v.geom = true)) →
      (l.uid, ([] : List String)) ∈ v.get_features st intersects) := by
  have hfst : (v.get_features st intersects).map Prod.fst =
      (v.layers.filter
        (fun l => l.has_permissions st v.token_key Role.VIEWER)).map DataLayer.uid :=
    map_fst_filterMap_if _ _ _ v.layers
  refine ⟨hfst, ?_, ?_⟩
  · intro l hl hperm hmem
    rw [hfst] at hmem
    rcases List.mem_map.mp hmem with ⟨l2, hl2, huid⟩
    rcases List.mem_filter.mp hl2 with ⟨hl2in, hl2perm⟩
    have : l2 = l := List.inj_on_of_nodup_map hnd hl2in hl huid
    subst this
    rw [hperm] at hl2perm
    exact Bool.false_ne_true hl2perm
  · intro l hl hperm hnone
    apply List.mem_filterMap.mpr
    refine ⟨l, hl, ?_⟩
    have hfe : st.features.filter
        (fun f => decide (f.layer = l.uid) && featureIntersects intersects f v.geom) = [] := by
      apply List.filter_eq_nil_iff.mpr
      intro f hf hcontra
      simp only [Bool.and_eq_true, decide_eq_true_eq] at hcontra
      exact hnone f hf ⟨hcontra.1, hcontra.2⟩
    simp [hperm, hfe]

/-- Witness for the C4 theorem at a concrete state: a view with a
permitted layer `L1` that has no intersecting feature and a
non-permitted layer `L2`; `L1` appears with an empty feature list and
`L2` is absent. -/
theorem get_features_layer_selection_witness :
    (let l1 : DataLayer := { uid := "L1", descriptor := "d1" }
     let l2 : DataLayer := { uid := "L2", descriptor := "d2" }
     let st : DB Int :=
      { tokens := [{ uid := "t1", key := "k1" }],
        dataLayers := [l1, l2],
        features := [{ uid := "F2", geom := some 100, layer := "L1", hash := "h2" }],
        dataLayerRoles := [{ token_id := "t1", role := Role.VIEWER, layer_id := "L1" }] }
     let v : GeoView Int :=
      { uid := "V1", descriptor := "v", geom := 0, layers := [l1, l2],
        token_key := some "k1" }
     ((v.get_features st (fun a b => decide (a = b))).map Prod.fst =
        (v.layers.filter
          (fun l => l.has_permissions st v.token_key Role.VIEWER)).map DataLayer.uid) ∧
      l2.uid ∉ (v.get_features st (fun a b => decide (a = b))).map Prod.fst ∧
      (l1.uid, ([] : List String)) ∈ v.get_features st (fun a b => decide (a = b))) := by
  have h := get_features_layer_selection (G := Int) (fun a b => decide (a = b))
    { tokens := [{ uid := "t1", key := "k1" }],
      dataLayers := [{ uid := "L1", descriptor := "d1" }, { uid := "L2", descriptor := "d2" }],
      features := [{ uid := "F2", geom := some 100, layer := "L1", hash := "h2" }],
      dataLayerRoles := [{ token_id := "t1", role := Role.VIEWER, layer_id := "L1" }] }
    { uid := "V1", descriptor := "v", geom := 0,
      layers := [{ uid := "L1", descriptor := "d1" }, { uid := "L2", descriptor := "d2" }],
      token_key := some "k1" }
    (by decide)
  exact ⟨h.1,
    h.2.1 { uid := "L2", descriptor := "d2" } (by decide) (by decide),
    h.2.2 { uid := "L1", descriptor := "d1" } (by decide) (by decide) (by decide)⟩

/-- C9: every projection entry names a layer associated with the view,
no associated layer contributes more than one entry, and every feature
identifier listed in an entry identifies a feature of the store whose
owning layer is exactly that entry's layer. -/
theorem get_features_well_formed {G : Type} (intersects : G → G → Bool)
    (st : DB G) (v : GeoView G)
    (hndL : (v.layers.map DataLayer.uid).Nodup)
    (hndF : (st.features.map Feature.uid).Nodup) :
    (∀ p ∈ v.get_features st intersects, p.1 ∈ v.layers.map DataLayer.uid) ∧
    ((v.get_features st intersects).map Prod.fst).Nodup ∧
    (∀ p ∈ v.get_features st intersects, ∀ fid ∈ p.2,
      ∃ f ∈ st.features, f.uid = fid ∧ f.layer = p.1 ∧
        ∀ f2 ∈ st.features, f2.uid = fid → f2 = f) := by
  refine ⟨?_, ?_, ?_⟩
  · intro p hp
    rcases List.mem_filterMap.mp hp with ⟨l, hl, hstep⟩
    by_cases hperm : l.has_permissions st v.token_key Role.VIEWER = true
    · simp only [hperm, if_true] at hstep
      have hpair := Option.some.inj hstep
      rw [← hpair]
      exact List.mem_map.mpr ⟨l, hl, rfl⟩
    · rw [Bool.not_eq_true] at hperm
      simp [hperm] at hstep
  · have hfst : (v.get_features st intersects).map Prod.fst =
        (v.layers.filter
          (fun l => l.has_permissions st v.token_key Role.VIEWER)).map DataLayer.uid :=
      map_fst_filterMap_if _ _ _ v.layers
    rw [hfst]
    exact ((List.filter_sublist v.layers).map DataLayer.uid).nodup hndL
  · intro p hp fid hfid
    rcases List.mem_filterMap.mp hp with ⟨l, _, hstep⟩
    by_cases hperm : l.has_permissions st v.token_key Role.VIEWER = true
    · simp only [hperm, if_true] at hstep
      have hpair := Option.some.inj hstep
      rw [← hpair] at hfid
      rcases List.mem_map.mp hfid with ⟨f, hf, huid⟩
      rcases List.mem_filter.mp hf with ⟨hfin, hpred⟩
      simp only [Bool.and_eq_true, decide_eq_true_eq] at hpred
      refine ⟨f, hfin, huid, ?_, ?_⟩
      · rw [← hpair]
        exact hpred.1
      · intro f2 hf2 huid2
        exact List.inj_on_of_nodup_map hndF hf2 hfin (huid2.trans huid.symm)
    · rw [Bool.not_eq_true] at hperm
      simp [hperm] at hstep

/-- Witness for the C9 theorem at a concrete state: the same view and
store as the C3 witness, with two layers and two features. -/
theorem get_features_well_formed_witness :
    (let st : DB Int :=
      { tokens := [{ uid := "t1", key := "k1" }],
        dataLayers := [{ uid := "L1", descriptor := "d1" },
                       { uid := "L2", descriptor := "d2" }],
        features := [{ uid := "F1", geom := some 0, layer := "L1", hash := "h1" },
                     { uid := "F2", geom := some 100, layer := "L2", hash := "h2" }],
        dataLayerRoles := [{ token_id := "t1", role := Role.VIEWER, layer_id := "L1" },
                           { token_id := "t1", role := Role.VIEWER, layer_id := "L2" }] }
     let v : GeoView Int :=
      { uid := "V1", descriptor := "v", geom := 0,
        layers := [{ uid := "L1", descriptor := "d1" },
                   { uid := "L2", descriptor := "d2" }],
        token_key := some "k1" }
     (∀ p ∈ v.get_features st (fun a b => decide (a = b)),
        p.1 ∈ v.layers.map DataLayer.uid) ∧
      ((v.get_features st (fun a b => decide (a = b))).map Prod.fst).Nodup ∧
      (∀ p ∈ v.get_features st (fun a b => decide (a = b)), ∀ fid ∈ p.2,
        ∃ f ∈ st.features, f.uid = fid ∧ f.layer = p.1 ∧
          ∀ f2 ∈ st.features, f2.uid = fid → f2 = f)) :=
  get_features_well_formed _ _ _ (by decide) (by decide)

/-! ### Revocation: idempotence and frame conditions -/

theorem roleDeleteMatch_eq_true_iff {L : String} {r0 : Role} {T : String}
    {b : DataLayerRole} :
    roleDeleteMatch L r0 T b = true ↔
      (b.layer_id = L ∧ b.role = r0 ∧ b.token_id = T) := by
  simp [roleDeleteMatch, and_assoc]

theorem roleDeleteMatch_eq_false {L : String} {r0 : Role} {T : String}
    {b : DataLayerRole}
    (h : ¬(b.layer_id = L ∧ b.role = r0 ∧ b.token_id = T)) :
    roleDeleteMatch L r0 T b = false := by
  apply Bool.eq_false_iff.mpr
  intro hm
  exact h (roleDeleteMatch_eq_true_iff.mp hm)

theorem filter_idem {α : Type} (p : α → Bool) (l : List α) :
    (l.filter p).filter p = l.filter p := by
  rw [List.filter_filter]
  apply filter_congr_on
  intro a _
  exact Bool.and_self _

theorem has_permissions_viewer_of_owner_binding {G : Type} (st : DB G) (l : DataLayer)
    (k : String) (hk : k ≠ "") (b : DataLayerRole) (hb : b ∈ st.dataLayerRoles)
    (hkm : keyMatches st k b = true) (hly : b.layer_id = l.uid)
    (hro : b.role = Role.OWNER) :
    l.has_permissions st (some k) Role.VIEWER = true := by
  unfold DataLayer.has_permissions
  by_cases hp : l.is_public = true
  · simp [hp]
  · rw [Bool.not_eq_true] at hp
    have hfalsy : tokenFalsy (some k) = false := by simp [tokenFalsy, hk]
    rw [hp, hfalsy]
    simp only [Bool.false_and, Bool.false_eq_true, if_false, Option.getD_some]
    have howners : 0 < (st.dataLayerRoles.filter
        (fun b0 => keyMatches st k b0 && decide (b0.layer_id = l.uid) &&
          decide (b0.role = Role.OWNER))).length := by
      apply List.length_pos_of_mem (a := b)
      apply List.mem_filter.mpr
      refine ⟨hb, ?_⟩
      rw [hkm, hly, hro]
      simp
    rw [decide_eq_true howners]
    simp

theorem remove_layer_role_generic {G : Type} (r0 : Role)
    (f : DB G → Option String → String → String → DB G × String)
    (hf : ∀ (st : DB G) (tk : Option String) (L T : String), f st tk L T =
      if has_layer_permissions st tk L Role.OWNER then
        ({ st with dataLayerRoles := st.dataLayerRoles.filter (fun b => !(roleDeleteMatch L r0 T b)) },
         "Removed access for token.")
      else (st, "Not permitted to edit Layer."))
    (st : DB G) (tk : Option String) (L T : String)
    (hperm : has_layer_permissions st tk L Role.OWNER = true) :
    ((∀ b ∈ st.dataLayerRoles, ¬(b.layer_id = L ∧ b.role = r0 ∧ b.token_id = T)) →
      f st tk L T = (st, "Removed access for token.")) ∧
    (f (f st tk L T).1 tk L T).1 = (f st tk L T).1 := by
  obtain ⟨tks, dls, fts, rls, gvs⟩ := st
  have hcall : f (⟨tks, dls, fts, rls, gvs⟩ : DB G) tk L T =
      (⟨tks, dls, fts, rls.filter (fun b => !(roleDeleteMatch L r0 T b)), gvs⟩,
       "Removed access for token.") := by
    rw [hf, hperm]
    rfl
  constructor
  · intro habs
    have hfe : rls.filter (fun b => !(roleDeleteMatch L r0 T b)) = rls := by
      apply List.filter_eq_self.mpr
      intro b hb
      rw [roleDeleteMatch_eq_false (habs b hb)]
      rfl
    rw [hcall, hfe]
  · rw [hcall]
    by_cases h2 : has_layer_permissions
        (⟨tks, dls, fts, rls.filter (fun b => !(roleDeleteMatch L r0 T b)),
          gvs⟩ : DB G) tk L Role.OWNER = true
    · rw [hf, h2]
      show (⟨tks, dls, fts,
          (rls.filter (fun b => !(roleDeleteMatch L r0 T b))).filter
            (fun b => !(roleDeleteMatch L r0 T b)), gvs⟩ : DB G) =
        ⟨tks, dls, fts, rls.filter (fun b => !(roleDeleteMatch L r0 T b)), gvs⟩
      rw [filter_idem]
    · rw [Bool.not_eq_true] at h2
      rw [hf, h2]
      rfl

/-- C8: for a caller holding Owner on the layer, revoking a binding
(T, L, r) for any role r — through the revoke handler that role routes
to — when no such binding exists succeeds with the success message and
leaves the whole store — hence every subsequent `has_permissions`
answer — unchanged, and revoking twice has the same effect on the
store as revoking once. -/
theorem removeLayerRole_idempotent_revoke {G : Type} (st : DB G) (tk : Option String)
    (L T : String) (r : Role)
    (hperm : has_layer_permissions st tk L Role.OWNER = true) :
    ((∀ b ∈ st.dataLayerRoles, ¬(b.layer_id = L ∧ b.role = r ∧ b.token_id = T)) →
      removeLayerRole st tk L T r = (st, "Removed access for token.")) ∧
    (removeLayerRole (removeLayerRole st tk L T r).1 tk L T r).1 =
      (removeLayerRole st tk L T r).1 := by
  cases r with
  | VIEWER =>
    exact remove_layer_role_generic Role.VIEWER removeLayerViewer
      (fun _ _ _ _ => rfl) st tk L T hperm
  | EDITOR =>
    exact remove_layer_role_generic Role.EDITOR removeLayerEditor
      (fun _ _ _ _ => rfl) st tk L T hperm
  | OWNER =>
    exact remove_layer_role_generic Role.OWNER removeLayerOwner
      (fun _ _ _ _ => rfl) st tk L T hperm

/-- Witness for the C8 theorem at a concrete state: the caller `t1`
owns layer `L1`; token `t2` holds no binding at all, so revoking each
of the three roles for it is a reported-success no-op, and the Owner
revocation is idempotent. -/
theorem removeLayerRole_idempotent_revoke_witness :
    (let st : DB Unit :=
      { tokens := [{ uid := "t1", key := "k1" }],
        dataLayers := [{ uid := "L1", descriptor := "d" }],
        dataLayerRoles := [{ token_id := "t1", role := Role.OWNER, layer_id := "L1" }] }
     (removeLayerRole st (some "k1") "L1" "t2" Role.VIEWER =
        (st, "Removed access for token.") ∧
      removeLayerRole st (some "k1") "L1" "t2" Role.EDITOR =
        (st, "Removed access for token.") ∧
      removeLayerRole st (some "k1") "L1" "t2" Role.OWNER =
        (st, "Removed access for token.")) ∧
     (removeLayerRole (removeLayerRole st (some "k1") "L1" "t2" Role.OWNER).1
        (some "k1") "L1" "t2" Role.OWNER).1 =
       (removeLayerRole st (some "k1") "L1" "t2" Role.OWNER).1) := by
  refine ⟨⟨?_, ?_, ?_⟩, ?_⟩
  · exact (removeLayerRole_idempotent_revoke _ _ _ _ Role.VIEWER (by decide)).1 (by decide)
  · exact (removeLayerRole_idempotent_revoke _ _ _ _ Role.EDITOR (by decide)).1 (by decide)
  · exact (removeLayerRole_idempotent_revoke _ _ _ _ Role.OWNER (by decide)).1 (by decide)
  · exact (removeLayerRole_idempotent_revoke _ _ _ _ Role.OWNER (by decide)).2

/-- C10: for a caller holding Owner on the layer, revoking Viewer for
token `T` on layer `L` deletes exactly the layer bindings matching
(L, Viewer, T): the credential, layer, feature and view-binding stores
are untouched, every non-matching layer binding survives, no matching
binding survives, and a token that also holds Owner on `L` still
passes the Viewer check afterwards. -/
theorem removeLayerViewer_frame {G : Type} (st : DB G) (tk : Option String)
    (L T : String) (hperm : has_layer_permissions st tk L Role.OWNER = true) :
    ((removeLayerViewer st tk L T).1.tokens = st.tokens ∧
     (removeLayerViewer st tk L T).1.dataLayers = st.dataLayers ∧
     (removeLayerViewer st tk L T).1.features = st.features ∧
     (removeLayerViewer st tk L T).1.geoViewRoles = st.geoViewRoles) ∧
    (∀ b ∈ st.dataLayerRoles, ¬(b.layer_id = L ∧ b.role = Role.VIEWER ∧ b.token_id = T) →
      b ∈ (removeLayerViewer st tk L T).1.dataLayerRoles) ∧
    (∀ b ∈ (removeLayerViewer st tk L T).1.dataLayerRoles,
      b ∈ st.dataLayerRoles ∧ ¬(b.layer_id = L ∧ b.role = Role.VIEWER ∧ b.token_id = T)) ∧
    (∀ t ∈ st.tokens, t.uid = T → t.key ≠ "" →
      ({ token_id := T, role := Role.OWNER, layer_id := L } : DataLayerRole) ∈
        st.dataLayerRoles →
      (∃ l, st.dataLayers.find? (fun l0 => decide (l0.uid = L)) = some l) →
      has_layer_permissions (removeLayerViewer st tk L T).1 (some t.key) L
        Role.VIEWER = true) := by
  obtain ⟨tks, dls, fts, rls, gvs⟩ := st
  have hcall : removeLayerViewer (⟨tks, dls, fts, rls, gvs⟩ : DB G) tk L T =
      (⟨tks, dls, fts, rls.filter (fun b => !(roleDeleteMatch L Role.VIEWER T b)), gvs⟩,
       "Removed access for token.") := by
    unfold removeLayerViewer
    rw [hperm]
    rfl
  rw [hcall]
  refine ⟨⟨rfl, rfl, rfl, rfl⟩, ?_, ?_, ?_⟩
  · intro b hb hnm
    apply List.mem_filter.mpr
    refine ⟨hb, ?_⟩
    rw [roleDeleteMatch_eq_false hnm]
    rfl
  · intro b hb
    rcases List.mem_filter.mp hb with ⟨hbin, hkeep⟩
    refine ⟨hbin, ?_⟩
    intro hm
    rw [roleDeleteMatch_eq_true_iff.mpr hm] at hkeep
    exact Bool.false_ne_true hkeep
  · intro t ht htuid hkey hb0 hex
    obtain ⟨l, hfind⟩ := hex
    have hl_uid : l.uid = L := by
      have h1 := List.find?_some (p := fun (l0 : DataLayer) => decide (l0.uid = L)) hfind
      exact of_decide_eq_true h1
    have hb0keep :
        ({ token_id := T, role := Role.OWNER, layer_id := L } : DataLayerRole) ∈
          rls.filter (fun b => !(roleDeleteMatch L Role.VIEWER T b)) := by
      apply List.mem_filter.mpr
      refine ⟨hb0, ?_⟩
      rw [roleDeleteMatch_eq_false (by simp)]
      rfl
    have hkm : keyMatches
        (⟨tks, dls, fts, rls.filter (fun b => !(roleDeleteMatch L Role.VIEWER T b)),
          gvs⟩ : DB G) t.key
        ({ token_id := T, role := Role.OWNER, layer_id := L } : DataLayerRole) = true := by
      apply decide_eq_true
      exact ⟨t, ht, htuid, rfl⟩
    unfold has_layer_permissions
    dsimp only at hfind ⊢
    rw [hfind]
    exact has_permissions_viewer_of_owner_binding _ l t.key hkey _ hb0keep hkm hl_uid.symm rfl

/-- Witness for the C10 theorem at a concrete state: token `t1` holds
both Owner and Viewer on `L1`; its own Viewer binding is revoked and
every conclusion of the frame theorem is exercised, in particular the
surviving Owner binding keeps the Viewer check true. -/
theorem removeLayerViewer_frame_witness :
    (let st : DB Unit :=
      { tokens := [{ uid := "t1", key := "k1" }],
        dataLayers := [{ uid := "L1", descriptor := "d" }],
        dataLayerRoles := [{ token_id := "t1", role := Role.OWNER, layer_id := "L1" },
                           { token_id := "t1", role := Role.VIEWER, layer_id := "L1" }] }
     (removeLayerViewer st (some "k1") "L1" "t1").1.geoViewRoles = st.geoViewRoles ∧
      ({ token_id := "t1", role := Role.OWNER, layer_id := "L1" } : DataLayerRole) ∈
        (removeLayerViewer st (some "k1") "L1" "t1").1.dataLayerRoles ∧
      (∀ b ∈ (removeLayerViewer st (some "k1") "L1" "t1").1.dataLayerRoles,
        ¬(b.layer_id = "L1" ∧ b.role = Role.VIEWER ∧ b.token_id = "t1")) ∧
      has_layer_permissions (removeLayerViewer st (some "k1") "L1" "t1").1
        (some "k1") "L1" Role.VIEWER = true) := by
  have h := removeLayerViewer_frame (G := Unit)
    { tokens := [{ uid := "t1", key := "k1" }],
      dataLayers := [{ uid := "L1", descriptor := "d" }],
      dataLayerRoles := [{ token_id := "t1", role := Role.OWNER, layer_id := "L1" },
                         { token_id := "t1", role := Role.VIEWER, layer_id := "L1" }] }
    (some "k1") "L1" "t1" (by decide)
  refine ⟨h.1.2.2.2, ?_, ?_, ?_⟩
  · exact h.2.1 _ (by decide) (by decide)
  · intro b hb
    exact (h.2.2.1 b hb).2
  · exact h.2.2.2 { uid := "t1", key := "k1" } (by decide) rfl (by decide) (by decide)
      ⟨{ uid := "L1", descriptor := "d" }, by decide⟩

/-! ### Content-addressed feature deduplication -/

/-- C7: with the deterministic hash capability `h`, a first
`create_feature` whose content hash is absent from the store succeeds;
a second create with byte-identical geometry and properties — hence
the identical content hash — under any layer fails with
`DuplicateContent` and leaves the feature store unchanged. -/
theorem create_feature_duplicate_rejected {G : Type}
    (h : Option G → Option String → String) (st : DB G)
    (u1 u2 lay1 lay2 : String) (g : Option G) (p : Option String)
    (habs : ∀ f ∈ st.features, f.hash ≠ h g p) :
    ∃ st1, create_feature h st u1 g lay1 p = Except.ok st1 ∧
      create_feature h st1 u2 g lay2 p = Except.error ApiError.DuplicateContent ∧
      create_feature_state h st1 u2 g lay2 p = st1 := by
  have hany : st.features.any (fun f => decide (f.hash = h g p)) = false := by
    apply List.any_eq_false.mpr
    intro f hf
    simp [habs f hf]
  have hok : create_feature h st u1 g lay1 p = Except.ok ({ st with
      features := st.features ++
        [{ uid := u1, geom := g, properties := p, layer := lay1, hash := h g p }] }) := by
    unfold create_feature
    rw [hany]
    rfl
  have herr : create_feature h ({ st with
      features := st.features ++
        [{ uid := u1, geom := g, properties := p, layer := lay1, hash := h g p }] })
      u2 g lay2 p = Except.error ApiError.DuplicateContent := by
    unfold create_feature
    have hself : ({ st with features := st.features ++
        [{ uid := u1, geom := g, properties := p, layer := lay1,
           hash := h g p }] } : DB G).features.any
          (fun f => decide (f.hash = h g p)) = true := by
      dsimp only
      rw [List.any_append]
      simp
    rw [hself]
    rfl
  refine ⟨_, hok, herr, ?_⟩
  unfold create_feature_state
  rw [herr]

/-- Witness for the C7 theorem at a concrete state: an empty store, a
constant hash capability, and two creates with identical content under
different layers. -/
theorem create_feature_duplicate_rejected_witness :
    (let h0 : Option Unit → Option String → String := fun _ _ => "h0"
     let st : DB Unit := {}
     (∀ f ∈ st.features, f.hash ≠ h0 none none) ∧
     (∃ st1, create_feature h0 st "F1" none "L1" none = Except.ok st1 ∧
       create_feature h0 st1 "F2" none "L2" none =
         Except.error ApiError.DuplicateContent ∧
       create_feature_state h0 st1 "F2" none "L2" none = st1)) :=
  ⟨by simp, create_feature_duplicate_rejected _ _ "F1" "F2" "L1" "L2" none none
    (by simp)⟩

/-! ### Code-bug evidence -/

/-- C1 (code-bug evidence): the `layers` POST handler performs Layer
creation and Owner-binding creation as two separate writes with no
enclosing transaction: after the `create_layer` write and before the
role save the store holds the new Layer with no binding at all, and
when the operator's credential cannot be resolved the handler stops
after the first write, leaving the Layer permanently ownerless — there
is no rollback. -/
theorem layers_post_two_step_not_atomic :
    (let st0 : DB Unit := { tokens := [{ uid := "t1", key := "k1" }] }
     ((create_layer st0 "L1" "d" false none).dataLayers.any
        (fun l => decide (l.uid = "L1")) = true ∧
      (create_layer st0 "L1" "d" false none).dataLayerRoles = []) ∧
     ((layersPost st0 (some "k1") "L1" "d" false none).dataLayerRoles =
        [{ token_id := "t1", role := Role.OWNER, layer_id := "L1" }]) ∧
     ((layersPost st0 (some "k2") "L1" "d" false none).dataLayers.any
        (fun l => decide (l.uid = "L1")) = true ∧
      (layersPost st0 (some "k2") "L1" "d" false none).dataLayerRoles = [])) := by
  simp only []
  decide

/-- C2 (code-bug evidence): with caller `t1` owning layer `L1`,
granting Owner to token `t2` through `addLayerOwner` raises a
`TypeError` — `views.py` line 186 builds a `GeoViewRole` with a
`layer_id` keyword that model does not have — so no layer binding is
saved and the grantee still fails the Owner check, while the parallel
`addLayerEditor` and `addLayerViewer` handlers persist their bindings
and the grantee passes the corresponding checks. -/
theorem addLayerOwner_wrong_binding_model :
    (let st0 : DB Unit :=
      { tokens := [{ uid := "t1", key := "k1" }, { uid := "t2", key := "k2" }],
        dataLayers := [{ uid := "L1", descriptor := "d" }],
        dataLayerRoles := [{ token_id := "t1", role := Role.OWNER, layer_id := "L1" }] }
     addLayerOwner st0 (some "k1") "L1" "t2" =
        Except.error "TypeError: layer_id is an invalid keyword argument for GeoViewRole" ∧
      has_layer_permissions (addLayerOwnerState st0 (some "k1") "L1" "t2")
        (some "k2") "L1" Role.OWNER = false ∧
      (addLayerEditor st0 (some "k1") "L1" "t2").2 = "Added access for token." ∧
      has_layer_permissions (addLayerEditor st0 (some "k1") "L1" "t2").1
        (some "k2") "L1" Role.EDITOR = true ∧
      has_layer_permissions (addLayerViewer st0 (some "k1") "L1" "t2").1
        (some "k2") "L1" Role.VIEWER = true) := by
  simp only []
  exact ⟨rfl, by decide, rfl, by decide, by decide⟩

end Rapid
